import Mathlib

/-
  Verification of the chat/media signaling and reconnection layer of the
  ZewedJobs front-end repository.

  Shallow embedding of:
  - `ChatSystem` (src/ethiopian-payments.js, lines 310-1652): WebSocket
    session lifecycle, offline message queue, linear-backoff reconnection,
    inbound-frame routing, bounded per-room message history.
  - `MediaRoom` (src/unnamed/part_001): WebRTC peer-session management,
    offer/answer/candidate handling, screen-share track replacement,
    room teardown.

  State is modelled explicitly; every externally visible action (socket
  transmission, console diagnostic, user-facing notification, scheduled
  reconnect timer, UI update, localStorage write) is recorded as an
  element of an effect list, in the order the source performs it.
-/

namespace ZewedChat

/-- A chat message, mirroring the object literal built in
`ChatSystem.sendMessage` (id, roomId, userId, userName, text, timestamp,
status). -/
structure Message where
  id : String
  roomId : String
  userId : String
  userName : String
  text : String
  timestamp : Nat
  status : String
deriving DecidableEq, Repr

/-- A chat room, mirroring the room objects stored in `this.rooms`.
The JS field `type` is rendered as `roomType`. -/
structure Room where
  id : String
  name : String
  participants : List String
  roomType : String
deriving DecidableEq, Repr

/-- The configuration record built in the `ChatSystem` constructor. -/
structure ChatConfig where
  reconnectAttempts : Nat
  reconnectDelay : Nat
  messageLimit : Nat
deriving DecidableEq, Repr

/-- Outbound wire frames, as built at the `this.send(...)` call sites. -/
inductive Frame where
  | auth (userId userName : String)
  | msg (m : Message)
  | fileMsg (m : Message)
  | typing (roomId : Option String) (isTyping : Bool)
  | readReceipt (messageId : String) (roomId : Option String)
  | leave (roomId : String)
  | pong
deriving DecidableEq, Repr

/-- Externally visible actions of the chat system, in source order:
socket transmission (`this.ws.send`), console diagnostics
(`console.error`/`console.warn`), user-facing notifications
(`Notifications.*`, identified by kind and a short tag for the message
template), a scheduled reconnect timer (`setTimeout(connect, delay)`),
DOM updates, and `saveData()` writes. -/
inductive Effect where
  | wsSend (f : Frame)
  | logError (tag : String)
  | notify (kind tag : String)
  | scheduleRetry (delayMs : Nat)
  | ui (tag : String)
  | save
deriving DecidableEq, Repr

/-- The mutable fields of a `ChatSystem` instance that the verified
operations read or write.  `hasWs` models `this.ws !== null`;
`connectResolved` records that the promise returned by `connect()` has
resolved. -/
structure ChatState where
  config : ChatConfig
  hasWs : Bool
  connected : Bool
  reconnectCount : Nat
  userId : String
  userName : String
  currentRoom : Option String
  rooms : List (String × Room)
  messages : List (String × List Message)
  typingUsers : List (String × String)
  unreadCounts : List (String × Nat)
  messageQueue : List Message
  connectResolved : Bool
deriving DecidableEq, Repr

/-- JS `Map.get`, on an insertion-ordered association list. -/
def mapGet {α : Type} (m : List (String × α)) (k : String) : Option α :=
  match m with
  | [] => none
  | p :: rest => if p.1 = k then some p.2 else mapGet rest k

/-- JS `Map.has`. -/
def mapHas {α : Type} (m : List (String × α)) (k : String) : Bool :=
  match m with
  | [] => false
  | p :: rest => if p.1 = k then true else mapHas rest k

/-- JS `Map.set`: overwrites in place if the key exists, otherwise appends
(JS maps preserve insertion order). -/
def mapSet {α : Type} (m : List (String × α)) (k : String) (v : α) : List (String × α) :=
  if mapHas m k then m.map (fun p => if p.1 = k then (k, v) else p)
  else m ++ [(k, v)]

/-- `ChatSystem.send` (line 1605): transmits only when `this.connected`
holds and a socket object exists; otherwise it does nothing at all — the
frame is neither transmitted nor queued. -/
def sendEffects (s : ChatState) (f : Frame) : List Effect :=
  if s.connected && s.hasWs then [Effect.wsSend f] else []

/-- `ChatSystem.send` as a state-passing operation (the JS method mutates
no instance state). -/
def send (s : ChatState) (f : Frame) : ChatState × List Effect :=
  (s, sendEffects s f)

/-- The history update inside `ChatSystem.addMessageToRoom` (line 1000):
push, then `splice(0, length - messageLimit)` once the cap is exceeded,
keeping the newest `messageLimit` entries. -/
def boundedAppend (limit : Nat) (l : List Message) (m : Message) : List Message :=
  let l1 := l ++ [m]
  if l1.length > limit then l1.drop (l1.length - limit) else l1

/-- `ChatSystem.addMessageToRoom` (line 1000): ensures the room has an
entry, appends, evicts the oldest entries beyond the cap, saves. -/
def addMessageToRoom (s : ChatState) (roomId : String) (m : Message) :
    ChatState × List Effect :=
  let newList := boundedAppend s.config.messageLimit ((mapGet s.messages roomId).getD []) m
  ({ s with messages := mapSet s.messages roomId newList }, [Effect.save])

/-- The message literal built in `ChatSystem.sendMessage` (line 655);
the fresh id and timestamp are environment inputs. -/
def mkMessage (id roomId userId userName text : String) (ts : Nat) : Message :=
  { id := id, roomId := roomId, userId := userId, userName := userName,
    text := text, timestamp := ts, status := "sending" }

/-- `ChatSystem.sendMessage` (line 648): resolve the target room
(`roomId || this.currentRoom`), locally echo via `addMessageToRoom`, then
either transmit (when `this.connected`) or push onto `this.messageQueue`. -/
def sendMessage (s : ChatState) (text : String) (roomIdArg : Option String)
    (freshId : String) (now : Nat) : ChatState × List Effect :=
  let target? := match roomIdArg with
    | some rid => some rid
    | none => s.currentRoom
  match target? with
  | none => (s, [Effect.notify "warning" "selectRoomFirst"])
  | some targetRoom =>
    let m := mkMessage freshId targetRoom s.userId s.userName text now
    let res1 := addMessageToRoom s targetRoom m
    if s.connected then
      (res1.1, res1.2 ++ sendEffects res1.1 (Frame.msg m))
    else
      ({ res1.1 with messageQueue := res1.1.messageQueue ++ [m] },
       res1.2 ++ [Effect.notify "info" "messageQueued"])

/-- The `while` loop of `ChatSystem.processMessageQueue` (line 1436):
shift each message and pass it to `this.send`; the loop changes no state
other than the queue, so the per-iteration send effects only depend on
the fixed connection fields. -/
def drainQueue (s : ChatState) : List Message → List Effect
  | [] => []
  | m :: rest => sendEffects s (Frame.msg m) ++ drainQueue s rest

/-- `ChatSystem.processMessageQueue` (line 1433): returns immediately
when disconnected or the queue is empty; otherwise drains the queue in
FIFO order and posts a success notification. -/
def processMessageQueue (s : ChatState) : ChatState × List Effect :=
  if s.connected = false ∨ s.messageQueue = [] then (s, [])
  else
    ({ s with messageQueue := [] },
     drainQueue s s.messageQueue ++ [Effect.notify "success" "queuedMessagesSent"])

/-- The `ws.onopen` handler installed by `ChatSystem.connect` (line 388):
set `connected`, reset `reconnectCount` to 0, send the authentication
frame, drain the queue, notify, and resolve the `connect()` promise.
`hasWs` is true here because the handler fires on the socket `connect`
just assigned to `this.ws`. -/
def onOpen (s : ChatState) : ChatState × List Effect :=
  let s1 := { s with hasWs := true, connected := true, reconnectCount := 0 }
  let e1 := sendEffects s1 (Frame.auth s1.userId s1.userName)
  let res2 := processMessageQueue s1
  ({ res2.1 with connectResolved := true },
   e1 ++ res2.2 ++ [Effect.notify "success" "connectedToServer"])

/-- `ChatSystem.handleDisconnection` (line 422): below the attempt cap,
increment the counter turn and schedule exactly one retry after
`reconnectDelay * reconnectCount` (linear backoff); at the cap, surface a
terminal error notification and schedule nothing. -/
def handleDisconnection (s : ChatState) : ChatState × List Effect :=
  let warn := Effect.notify "warning" "disconnected"
  if s.reconnectCount < s.config.reconnectAttempts then
    let count := s.reconnectCount + 1
    let delay := s.config.reconnectDelay * count
    ({ s with reconnectCount := count },
     [warn, Effect.notify "info" "reconnecting", Effect.scheduleRetry delay])
  else
    (s, [warn, Effect.notify "error" "reconnectFailed"])

/-- The `ws.onclose` handler (line 411): clear `connected`, then run
`handleDisconnection`. -/
def onClose (s : ChatState) : ChatState × List Effect :=
  handleDisconnection { s with connected := false }

/-- A decoded inbound frame as consumed by the `switch` in
`ChatSystem.handleMessage`.  The JSON field `message` is polymorphic in
the source (a message object for `message`/`file` frames, a text for
`error` frames); it is split here into `message` and `errText`. -/
structure InData where
  type : String
  message : Option Message
  errText : Option String
  roomId : Option String
  userId : Option String
  userName : Option String
  isTyping : Option Bool
deriving DecidableEq, Repr

/-- An inbound socket event: either data that `JSON.parse` decoded, or a
malformed payload on which `JSON.parse` throws. -/
inductive InEvent where
  | parsed (d : InData)
  | malformed
deriving DecidableEq, Repr

/-- `ChatSystem.incrementUnreadCount` (line 1415). -/
def incrementUnreadCount (s : ChatState) (roomId : String) : ChatState × List Effect :=
  let current := (mapGet s.unreadCounts roomId).getD 0
  ({ s with unreadCounts := mapSet s.unreadCounts roomId (current + 1) },
   [Effect.ui "roomUnreadCount"])

/-- `messages.find(m => m.id === messageId)` inside `ChatSystem.findMessage`:
first message in the room with the given id. -/
def findInList (l : List Message) (id : String) : Option Message :=
  match l with
  | [] => none
  | m :: rest => if m.id = id then some m else findInList rest id

/-- `ChatSystem.findMessage` (line 1352): scan the rooms in Map insertion
order and return the first matching message. -/
def findMessage (ms : List (String × List Message)) (id : String) : Option Message :=
  match ms with
  | [] => none
  | (_, l) :: rest =>
    match findInList l id with
    | some m => some m
    | none => findMessage rest id

/-- In-place status mutation of the first matching message of one room
(the JS code mutates the object returned by `find`). -/
def updStatusInList (l : List Message) (id status : String) : List Message :=
  match l with
  | [] => []
  | m :: rest =>
    if m.id = id then { m with status := status } :: rest
    else m :: updStatusInList rest id status

/-- The effect of mutating the message returned by `ChatSystem.findMessage`:
only the first room containing the id, and within it only the first
matching message, is touched. -/
def updStatusInRooms (ms : List (String × List Message)) (id status : String) :
    List (String × List Message) :=
  match ms with
  | [] => []
  | (r, l) :: rest =>
    match findInList l id with
    | some _ => (r, updStatusInList l id status) :: rest
    | none => (r, l) :: updStatusInRooms rest id status

/-- `ChatSystem.updateMessageStatus` (line 1388): always updates the DOM
badge; if `findMessage` locates a stored copy, sets its `status` field
and saves. -/
def updateMessageStatus (s : ChatState) (messageId status : String) :
    ChatState × List Effect :=
  match findMessage s.messages messageId with
  | some _ =>
    ({ s with messages := updStatusInRooms s.messages messageId status },
     [Effect.ui "messageStatus", Effect.save])
  | none => (s, [Effect.ui "messageStatus"])

/-- `ChatSystem.handleIncomingMessage` (line 905): own messages only get
their stored copy marked `delivered`; foreign messages are appended to
the room history and either displayed and acknowledged (current room) or
counted as unread. -/
def handleIncomingMessage (s : ChatState) (m : Message) : ChatState × List Effect :=
  if m.userId = s.userId then
    updateMessageStatus s m.id "delivered"
  else
    let res1 := addMessageToRoom s m.roomId m
    if res1.1.currentRoom = some m.roomId then
      (res1.1,
       res1.2 ++ [Effect.ui "displayMessage"]
             ++ sendEffects res1.1 (Frame.readReceipt m.id res1.1.currentRoom))
    else
      let res2 := incrementUnreadCount res1.1 m.roomId
      (res2.1, res1.2 ++ res2.2 ++ [Effect.notify "info" "newMessage"])

/-- JS truthiness of the optional `isTyping` field. -/
def optTruthy : Option Bool → Bool
  | some b => b
  | none => false

/-- JS `Map.delete`. -/
def mapDelete {α : Type} (m : List (String × α)) (k : String) : List (String × α) :=
  m.filter (fun p => !(p.1 == k))

/-- `ChatSystem.handleTypingIndicator` (line 932); an absent `roomId` is
treated like a null room. -/
def handleTypingIndicator (s : ChatState) (d : InData) : ChatState × List Effect :=
  if d.roomId ≠ s.currentRoom then (s, [])
  else
    let uid := d.userId.getD "undefined"
    let uname := d.userName.getD "undefined"
    let s1 :=
      if optTruthy d.isTyping then { s with typingUsers := mapSet s.typingUsers uid uname }
      else { s with typingUsers := mapDelete s.typingUsers uid }
    (s1, [Effect.ui "typingIndicator"])

/-- The `case` labels of the `switch` in `ChatSystem.handleMessage`. -/
def dispatchTypes : List String :=
  ["message", "file", "typing", "room_update", "user_joined", "user_left",
   "message_read", "error", "ping"]

/-- The `case` labels whose target methods (`handleRoomUpdate`,
`handleUserJoined`, `handleUserLeft`, `handleMessageRead`) are not
defined anywhere in the repository: invoking them raises a `TypeError`
that the surrounding `try`/`catch` converts into the parse-failure
diagnostic. -/
def missingHandlerTypes : List String :=
  ["room_update", "user_joined", "user_left", "message_read"]

/-- `ChatSystem.handleMessage` (line 858): `JSON.parse` inside `try`,
then a `switch` on `data.type` with no `default` case, so unknown types
fall through silently.  A missing `message` payload on a `message`/`file`
frame makes the handler dereference `undefined`, which the `catch`
converts into the same logged diagnostic, as do the four dispatch targets
that do not exist in the source. -/
def handleMessage (s : ChatState) (e : InEvent) : ChatState × List Effect :=
  match e with
  | InEvent.malformed => (s, [Effect.logError "parseFailed"])
  | InEvent.parsed d =>
    if d.type = "message" then
      match d.message with
      | some m => handleIncomingMessage s m
      | none => (s, [Effect.logError "parseFailed"])
    else if d.type = "file" then
      match d.message with
      | some m => handleIncomingMessage s m
      | none => (s, [Effect.logError "parseFailed"])
    else if d.type = "typing" then
      handleTypingIndicator s d
    else if d.type = "room_update" ∨ d.type = "user_joined" ∨
            d.type = "user_left" ∨ d.type = "message_read" then
      (s, [Effect.logError "parseFailed"])
    else if d.type = "error" then
      (s, [Effect.notify "error" (d.errText.getD "undefined")])
    else if d.type = "ping" then
      (s, sendEffects s Frame.pong)
    else
      (s, [])

/-- `ChatSystem.leaveAllRooms` (line 843): send a leave frame for every
room listing this user (via `this.send`, so the frames are dropped when
disconnected), then clear `currentRoom`, `rooms` and `messages`.  The
WebSocket itself is not closed. -/
def leaveAllRooms (s : ChatState) : ChatState × List Effect :=
  let effs := s.rooms.foldl
    (fun acc p =>
      acc ++ (if p.2.participants.contains s.userId then sendEffects s (Frame.leave p.1) else []))
    []
  ({ s with currentRoom := none, rooms := [], messages := [] }, effs)

/-- Browser events driving the chat connection. -/
inductive ChatEvent where
  | sockOpen
  | sockClose
  | recv (e : InEvent)
deriving DecidableEq, Repr

/-- One browser event dispatched to the handlers `connect` installed. -/
def chatStep (s : ChatState) (e : ChatEvent) : ChatState × List Effect :=
  match e with
  | ChatEvent.sockOpen => onOpen s
  | ChatEvent.sockClose => onClose s
  | ChatEvent.recv ie => handleMessage s ie

/-- Run a sequence of browser events, accumulating effects in order. -/
def runEvents (s : ChatState) : List ChatEvent → ChatState × List Effect
  | [] => (s, [])
  | e :: rest =>
    let r1 := chatStep s e
    let r2 := runEvents r1.1 rest
    (r2.1, r1.2 ++ r2.2)

/-- Whether an event delivers an inbound server frame. -/
def isRecv : ChatEvent → Bool
  | ChatEvent.recv _ => true
  | _ => false

/-- The chat messages transmitted on the wire, extracted from an effect
list in transmission order. -/
def sentMsgFrames (effs : List Effect) : List Message :=
  effs.filterMap (fun e =>
    match e with
    | Effect.wsSend (Frame.msg m) => some m
    | _ => none)

/-- Number of reconnect timers an effect list schedules. -/
def countRetries (effs : List Effect) : Nat :=
  (effs.filter (fun e =>
    match e with
    | Effect.scheduleRetry _ => true
    | _ => false)).length

/-- Whether an effect list surfaces an error notification to the user. -/
def surfacesError (effs : List Effect) : Bool :=
  effs.any (fun e =>
    match e with
    | Effect.notify k _ => k == "error"
    | _ => false)

/-- Whether an effect list schedules any reconnect timer. -/
def schedulesRetry (effs : List Effect) : Bool :=
  effs.any (fun e =>
    match e with
    | Effect.scheduleRetry _ => true
    | _ => false)

/-- The constructor defaults (`reconnectAttempts: 5`, `reconnectDelay:
3000`, `messageLimit: 1000`). -/
def chatCfg : ChatConfig :=
  { reconnectAttempts := 5, reconnectDelay := 3000, messageLimit := 1000 }

/-- A configuration with `maxAttempts = 2`, as in the spec scenario. -/
def chatCfgLow : ChatConfig :=
  { reconnectAttempts := 2, reconnectDelay := 1000, messageLimit := 1000 }

/-- A sample foreign message. -/
def mDemo : Message :=
  { id := "m0", roomId := "r1", userId := "u2", userName := "Bob",
    text := "hello", timestamp := 1, status := "sent" }

/-- A sample own message. -/
def mDemo2 : Message :=
  { id := "m1", roomId := "r1", userId := "u1", userName := "Alice",
    text := "again", timestamp := 2, status := "sent" }

/-- A disconnected chat state with a selected room and empty queue. -/
def chatS0 : ChatState :=
  { config := chatCfg, hasWs := true, connected := false, reconnectCount := 0,
    userId := "u1", userName := "Alice", currentRoom := some "r1",
    rooms := [], messages := [], typingUsers := [], unreadCounts := [],
    messageQueue := [], connectResolved := false }

/-- The state right after the `ChatSystem` constructor runs, before any
socket exists. -/
def chatInit : ChatState := { chatS0 with hasWs := false }

/-- A state that has exhausted its reconnect budget
(`maxAttempts = 2`, two increments already performed). -/
def chatFailedSt : ChatState :=
  { chatS0 with config := chatCfgLow, reconnectCount := 2 }

/-- A state whose room `r1` holds exactly `messageLimit = 1000`
messages. -/
def chatAtCap : ChatState :=
  { chatS0 with messages := [("r1", List.replicate 1000 mDemo)] }

/-- Stored message in room `r0`, sent by another user. -/
def mX : Message :=
  { id := "x", roomId := "r0", userId := "u2", userName := "Bob",
    text := "one", timestamp := 1, status := "sent" }

/-- Stored message in room `r1`, sent by another user. -/
def mY : Message :=
  { id := "y", roomId := "r1", userId := "u2", userName := "Bob",
    text := "two", timestamp := 2, status := "sent" }

/-- Stored message in room `r1`, sent by the local user `u1`. -/
def mZ : Message :=
  { id := "z", roomId := "r1", userId := "u1", userName := "Alice",
    text := "three", timestamp := 3, status := "sent" }

/-- A state holding message histories in two rooms. -/
def chatC10 : ChatState :=
  { chatS0 with messages := [("r0", [mX]), ("r1", [mY, mZ])] }

/-- An inbound frame whose `type` matches no `switch` case. -/
def bogusInData : InData :=
  { type := "presence_sync", message := none, errText := none,
    roomId := none, userId := none, userName := none, isTyping := none }

/-- Another inbound frame with an unknown `type`. -/
def bogusInData2 : InData := { bogusInData with type := "unknown_kind" }

/-- An inbound frame whose `switch` case names an undefined handler. -/
def roomUpdData : InData := { bogusInData with type := "room_update" }

end ZewedChat

namespace ZewedMedia

/-- A media track (`MediaStreamTrack`): kind is `"audio"` or `"video"`;
`stopped` records that `track.stop()` has been called. -/
structure Track where
  id : String
  kind : String
  stopped : Bool
deriving DecidableEq, Repr

/-- An `RTCRtpSender`: holds the currently attached outbound track
(`null` after `replaceTrack(undefined)`). -/
structure Sender where
  track : Option Track
deriving DecidableEq, Repr

/-- One `RTCPeerConnection` as `MediaRoom` uses it: the senders created
by `addTrack`, the applied remote/local descriptions, and the ICE
candidates applied via `addIceCandidate`. -/
structure PeerConn where
  senders : List Sender
  remoteDesc : Option String
  localDesc : Option String
  candidates : List String
deriving DecidableEq, Repr

/-- Externally visible actions of `MediaRoom`: signaling-channel sends,
`pc.close()` calls, and user notifications. -/
inductive MEffect where
  | sendAnswer (toId answer : String)
  | sendLeave (roomId : Option String)
  | closePeer (userId : String)
  | notify (kind tag : String)
deriving DecidableEq, Repr

/-- The mutable fields of a `MediaRoom` instance the verified operations
read or write.  `hasSignaling` models `this.signaling !== null`;
`signalingOpen` records that the signaling WebSocket has not been
closed (the source never calls `close()` on it). -/
structure MediaState where
  peerConnections : List (String × PeerConn)
  localStream : Option (List Track)
  screenStream : Option (List Track)
  hasSignaling : Bool
  signalingOpen : Bool
  isScreenSharing : Bool
  isCallActive : Bool
  roomId : Option String
  participants : List (String × String)
deriving DecidableEq, Repr

open ZewedChat (mapGet mapSet)

/-- `s.track?.kind === 'video'`: the sender predicate used by the
screen-share replacement loops. -/
def isVideoSender (sd : Sender) : Bool :=
  match sd.track with
  | some t => if t.kind = "video" then true else false
  | none => false

/-- `getVideoTracks()[0]`: the first video track of a stream. -/
def firstVideoTrack (l : List Track) : Option Track :=
  match l with
  | [] => none
  | t :: rest => if t.kind = "video" then some t else firstVideoTrack rest

/-- The body of the `forEach` over `this.peerConnections` in
`MediaRoom.startScreenShare` (line 194) and `stopScreenShare` (line 234):
find the first sender holding a video track and call `replaceTrack` on
it; every other sender is untouched. -/
def replaceFirstVideo (l : List Sender) (nt? : Option Track) : List Sender :=
  match l with
  | [] => []
  | sd :: rest =>
    if isVideoSender sd then { sd with track := nt? } :: rest
    else sd :: replaceFirstVideo rest nt?

/-- `this.localStream?.getVideoTracks()[0]` (line 232). -/
def localVideoTrack (s : MediaState) : Option Track :=
  match s.localStream with
  | none => none
  | some lt => firstVideoTrack lt

/-- `track.stop()` applied to every track of a stream. -/
def stopAll (l : List Track) : List Track :=
  l.map (fun t => { t with stopped := true })

/-- `MediaRoom.startScreenShare` (line 180): capture the screen stream
(the tracks are an environment input from `getDisplayMedia`), take its
first video track, and replace the first video sender of every peer
connection with it; then flag screen sharing and notify.  The local
preview update and the `onended` wiring are DOM-only. -/
def startScreenShare (s : MediaState) (screenTracks : List Track) :
    MediaState × List MEffect :=
  let nt? := firstVideoTrack screenTracks
  let pcs := s.peerConnections.map
    (fun (p : String × PeerConn) => (p.1, { p.2 with senders := replaceFirstVideo p.2.senders nt? }))
  ({ s with screenStream := some screenTracks, peerConnections := pcs,
            isScreenSharing := true },
   [MEffect.notify "success" "screenShareStarted"])

/-- `MediaRoom.stopScreenShare` (line 225): no-op without a screen
stream; otherwise stop the screen tracks, and if the camera stream has a
video track, swap it back into the first video sender of every peer
connection; finally drop the screen stream and clear the flag. -/
def stopScreenShare (s : MediaState) : MediaState × List MEffect :=
  match s.screenStream with
  | none => (s, [])
  | some _ =>
    let s2 :=
      match localVideoTrack s with
      | some vt =>
        let pcs := s.peerConnections.map
          (fun (p : String × PeerConn) => (p.1, { p.2 with senders := replaceFirstVideo p.2.senders (some vt) }))
        { s with peerConnections := pcs }
      | none => s
    ({ s2 with screenStream := none, isScreenSharing := false },
     [MEffect.notify "success" "screenShareStopped"])

/-- `MediaRoom.createPeerConnection` (line 501): allocate a fresh
connection, attach every current local track as a sender, and register
it under the participant id (`Map.set`, overwriting any previous
session). -/
def createPeerConnection (s : MediaState) (userId : String) : MediaState :=
  let pc : PeerConn :=
    { senders := (s.localStream.getD []).map (fun t => { track := some t }),
      remoteDesc := none, localDesc := none, candidates := [] }
  { s with peerConnections := mapSet s.peerConnections userId pc }

/-- The synchronous prefix of `MediaRoom.handleOffer` (line 448): the
call to `createPeerConnection` registers the session in the map before
the first `await`, so the session exists for any frame processed during
the asynchronous remainder. -/
def offerCreate (s : MediaState) (userId : String) : MediaState :=
  createPeerConnection s userId

/-- The remainder of `MediaRoom.handleOffer` after its awaits resolve:
apply the remote offer, apply the locally generated answer (the answer
text is produced by the browser and is an environment input), and send
the answer addressed to `message.from`. -/
def offerComplete (s : MediaState) (userId fromId offer answer : String) :
    MediaState × List MEffect :=
  match mapGet s.peerConnections userId with
  | none => (s, [])
  | some pc =>
    let pc1 := { pc with remoteDesc := some offer, localDesc := some answer }
    ({ s with peerConnections := mapSet s.peerConnections userId pc1 },
     [MEffect.sendAnswer fromId answer])

/-- `MediaRoom.handleOffer` run to completion with no interleaving. -/
def handleOffer (s : MediaState) (userId fromId offer answer : String) :
    MediaState × List MEffect :=
  offerComplete (offerCreate s userId) userId fromId offer answer

/-- `MediaRoom.handleCandidate` (line 471): look up the session for
`message.from`; apply the candidate when it exists, otherwise do nothing
at all — no state change, no diagnostic, no failure. -/
def handleCandidate (s : MediaState) (fromId cand : String) :
    MediaState × List MEffect :=
  match mapGet s.peerConnections fromId with
  | some pc =>
    let pc1 := { pc with candidates := pc.candidates ++ [cand] }
    ({ s with peerConnections := mapSet s.peerConnections fromId pc1 }, [])
  | none => (s, [])

/-- `MediaRoom.handleAnswer` (line 464): apply the remote answer to the
session for `message.from` when it exists, otherwise do nothing. -/
def handleAnswer (s : MediaState) (fromId answer : String) :
    MediaState × List MEffect :=
  match mapGet s.peerConnections fromId with
  | some pc =>
    let pc1 := { pc with remoteDesc := some answer }
    ({ s with peerConnections := mapSet s.peerConnections fromId pc1 }, [])
  | none => (s, [])

/-- `MediaRoom.leaveRoom` (line 366): close every peer connection and
clear the map, send a leave frame when a signaling object exists, stop
every local and screen track, and reset the call flags.  The signaling
WebSocket itself is never closed. -/
def leaveRoom (s : MediaState) : MediaState × List MEffect :=
  let closeEffs := s.peerConnections.map (fun p => MEffect.closePeer p.1)
  let leaveEffs := if s.hasSignaling then [MEffect.sendLeave s.roomId] else []
  ({ s with peerConnections := [],
            localStream := s.localStream.map stopAll,
            screenStream := s.screenStream.map stopAll,
            isCallActive := false,
            roomId := none,
            participants := [] },
   closeEffs ++ leaveEffs ++ [MEffect.notify "success" "leftRoom"])

/-- Specification predicate for C6: a new sender relates to its old self
by having received the new video track exactly when it was a video
sender, and being untouched otherwise. -/
def senderUpdated (nt : Track) (snew sold : Sender) : Prop :=
  (isVideoSender sold = true → snew = { sold with track := some nt }) ∧
  (isVideoSender sold = false → snew = sold)

/-- Specification predicate for C6, lifted to a keyed session: same key,
same negotiation fields, senders related pointwise by `senderUpdated`. -/
def sessionUpdated (nt : Track) (pnew pold : String × PeerConn) : Prop :=
  pnew.1 = pold.1 ∧
  pnew.2.remoteDesc = pold.2.remoteDesc ∧
  pnew.2.localDesc = pold.2.localDesc ∧
  pnew.2.candidates = pold.2.candidates ∧
  List.Forall₂ (senderUpdated nt) pnew.2.senders pold.2.senders

/-- A microphone (audio) track. -/
def trackMic : Track := { id := "mic", kind := "audio", stopped := false }

/-- A camera (video) track. -/
def trackCam : Track := { id := "cam", kind := "video", stopped := false }

/-- A screen-capture (video) track. -/
def trackScr : Track := { id := "scr", kind := "video", stopped := false }

/-- A negotiated peer connection carrying one audio and one video
sender. -/
def pcDemo : PeerConn :=
  { senders := [{ track := some trackMic }, { track := some trackCam }],
    remoteDesc := some "offer9", localDesc := some "answer9", candidates := [] }

/-- A media state with no peer session at all. -/
def mediaS0 : MediaState :=
  { peerConnections := [], localStream := some [trackMic, trackCam],
    screenStream := none, hasSignaling := true, signalingOpen := true,
    isScreenSharing := false, isCallActive := false,
    roomId := some "room1", participants := [] }

/-- A media state in an active screen-sharing call with one peer. -/
def mediaS1 : MediaState :=
  { peerConnections := [("p9", pcDemo)], localStream := some [trackMic, trackCam],
    screenStream := some [trackScr], hasSignaling := true, signalingOpen := true,
    isScreenSharing := true, isCallActive := true,
    roomId := some "room1", participants := [("p9", "Bob")] }

end ZewedMedia

namespace ZewedChat

lemma mapGet_map_update {α : Type} (m : List (String × α)) (k : String) (v : α)
    (h : mapHas m k = true) :
    mapGet (m.map (fun p => if p.1 = k then (k, v) else p)) k = some v := by
  induction m with
  | nil => simp [mapHas] at h
  | cons p rest ih =>
    by_cases hp : p.1 = k
    · simp [mapGet, hp]
    · simp only [List.map_cons, mapGet, if_neg hp]
      exact ih (by simpa [mapHas, hp] using h)

lemma mapGet_append_single {α : Type} (m : List (String × α)) (k : String) (v : α)
    (h : mapHas m k = false) :
    mapGet (m ++ [(k, v)]) k = some v := by
  induction m with
  | nil => simp [mapGet]
  | cons p rest ih =>
    by_cases hp : p.1 = k
    · simp [mapHas, hp] at h
    · simp only [List.cons_append, mapGet, if_neg hp]
      exact ih (by simpa [mapHas, hp] using h)

lemma mapGet_mapSet_self {α : Type} (m : List (String × α)) (k : String) (v : α) :
    mapGet (mapSet m k v) k = some v := by
  by_cases h : mapHas m k = true
  · simpa [mapSet, h] using mapGet_map_update m k v h
  · have h2 : mapHas m k = false := by simpa using h
    simpa [mapSet, h2] using mapGet_append_single m k v h2

/-- Claim C8: `addMessageToRoom` keeps the room history bounded with
strict FIFO eviction: for a room already holding exactly
`messageLimit ≥ 1` messages, appending one more evicts exactly the
oldest entry, and the room again holds exactly `messageLimit` messages
in arrival order. -/
theorem c8_addMessage_at_cap_evicts_fifo (s : ChatState) (roomId : String)
    (m : Message) (l : List Message)
    (hl : mapGet s.messages roomId = some l)
    (hcap : l.length = s.config.messageLimit)
    (hpos : 1 ≤ s.config.messageLimit) :
    mapGet (addMessageToRoom s roomId m).1.messages roomId = some (l.drop 1 ++ [m]) ∧
    (l.drop 1 ++ [m]).length = s.config.messageLimit := by
  have hbound : boundedAppend s.config.messageLimit l m = l.drop 1 ++ [m] := by
    unfold boundedAppend
    have hgt : (l ++ [m]).length > s.config.messageLimit := by
      simp [hcap]
    rw [if_pos hgt]
    have hdrop : (l ++ [m]).length - s.config.messageLimit = 1 := by
      simp [hcap]
    rw [hdrop]
    rcases l with _ | ⟨x, xs⟩
    · exfalso
      simp at hcap
      omega
    · simp
  constructor
  · unfold addMessageToRoom
    simp only [hl, Option.getD_some, hbound]
    exact mapGet_mapSet_self s.messages roomId (l.drop 1 ++ [m])
  · rcases l with _ | ⟨x, xs⟩
    · exfalso
      simp at hcap
      omega
    · simp at hcap ⊢
      omega

theorem c8_witness :
    mapGet (addMessageToRoom chatAtCap "r1" mDemo2).1.messages "r1"
      = some ((List.replicate 1000 mDemo).drop 1 ++ [mDemo2]) ∧
    ((List.replicate 1000 mDemo).drop 1 ++ [mDemo2]).length
      = chatAtCap.config.messageLimit :=
  c8_addMessage_at_cap_evicts_fifo chatAtCap "r1" mDemo2 (List.replicate 1000 mDemo)
    (by rfl) (by rw [List.length_replicate]; rfl) (by decide)

/-- Claim C2, counterexample to the claim as stated: in a disconnected
state, `send` neither transmits the frame nor appends it to the outbound
queue — the state (including `messageQueue`) is returned unchanged and
the effect list is empty, whereas the claim requires the frame to be
appended to the outbound queue. -/
theorem c2_counterexample :
    chatS0.connected = false ∧ chatS0.messageQueue = [] ∧
    send chatS0 Frame.pong = (chatS0, []) := by
  refine ⟨rfl, rfl, ?_⟩
  rfl

/-- Claim C2 as amended: when `Connected` (with a socket present) `send`
transmits the frame immediately; when not connected `send` silently
drops the frame, changing nothing and raising no error; chat messages
issued through `sendMessage` while disconnected are appended to the
outbound message queue instead. -/
theorem c2_send_amended (s : ChatState) (f : Frame) (text freshId : String)
    (ts : Nat) (r : String) :
    (s.connected = true → s.hasWs = true → send s f = (s, [Effect.wsSend f])) ∧
    (s.connected = false → send s f = (s, [])) ∧
    (s.connected = false → s.currentRoom = some r →
      (sendMessage s text none freshId ts).1.messageQueue
        = s.messageQueue ++ [mkMessage freshId r s.userId s.userName text ts]) := by
  refine ⟨?_, ?_, ?_⟩
  · intro h1 h2
    simp [send, sendEffects, h1, h2]
  · intro h1
    simp [send, sendEffects, h1]
  · intro h1 h2
    simp [sendMessage, h2, h1, addMessageToRoom]

theorem c2_witness :
    send chatS0 Frame.pong = (chatS0, []) ∧
    (sendMessage chatS0 "hola" none "mid1" 7).1.messageQueue
      = chatS0.messageQueue
        ++ [mkMessage "mid1" "r1" chatS0.userId chatS0.userName "hola" 7] :=
  ⟨(c2_send_amended chatS0 Frame.pong "hola" "mid1" 7 "r1").2.1 rfl,
   (c2_send_amended chatS0 Frame.pong "hola" "mid1" 7 "r1").2.2 rfl rfl⟩

lemma processMessageQueue_keeps_fields (s : ChatState) :
    (processMessageQueue s).1.connected = s.connected ∧
    (processMessageQueue s).1.hasWs = s.hasWs ∧
    (processMessageQueue s).1.reconnectCount = s.reconnectCount ∧
    (processMessageQueue s).1.connectResolved = s.connectResolved := by
  unfold processMessageQueue
  split <;> simp

lemma processMessageQueue_drains (s : ChatState) (h : s.connected = true) :
    (processMessageQueue s).1.messageQueue = [] := by
  unfold processMessageQueue
  split
  · rename_i hc
    rcases hc with hc | hc
    · rw [h] at hc
      cases hc
    · simp [hc]
  · simp

lemma drainQueue_connected (s : ChatState) (q : List Message)
    (hc : s.connected = true) (hw : s.hasWs = true) :
    drainQueue s q = q.map (fun m => Effect.wsSend (Frame.msg m)) := by
  induction q with
  | nil => rfl
  | cons m rest ih => simp [drainQueue, sendEffects, hc, hw, ih]

lemma sentMsgFrames_append (a b : List Effect) :
    sentMsgFrames (a ++ b) = sentMsgFrames a ++ sentMsgFrames b := by
  simp [sentMsgFrames]

lemma sentMsgFrames_map (q : List Message) :
    sentMsgFrames (q.map (fun m => Effect.wsSend (Frame.msg m))) = q := by
  induction q with
  | nil => rfl
  | cons m rest ih =>
    simpa [sentMsgFrames, List.filterMap_cons] using ih

lemma drainQueue_no_retry (s : ChatState) (q : List Message) :
    schedulesRetry (drainQueue s q) = false := by
  induction q with
  | nil => rfl
  | cons m rest ih =>
    simp only [drainQueue, schedulesRetry, List.any_append,
      Bool.or_eq_false_iff] at ih ⊢
    refine ⟨?_, ih⟩
    unfold sendEffects
    split <;> rfl

lemma processMessageQueue_sent (s : ChatState)
    (hc : s.connected = true) (hw : s.hasWs = true) :
    sentMsgFrames (processMessageQueue s).2 = s.messageQueue := by
  unfold processMessageQueue
  split
  · rename_i h
    rcases h with h | h
    · rw [hc] at h
      cases h
    · simp [sentMsgFrames, h]
  · rw [sentMsgFrames_append, drainQueue_connected s s.messageQueue hc hw,
        sentMsgFrames_map]
    simp [sentMsgFrames]

lemma processMessageQueue_no_retry (s : ChatState) :
    schedulesRetry (processMessageQueue s).2 = false := by
  unfold processMessageQueue
  split
  · simp [schedulesRetry]
  · simp only [schedulesRetry, List.any_append]
    have h := drainQueue_no_retry s s.messageQueue
    simp only [schedulesRetry] at h
    simp [h]

lemma onOpen_spec (s : ChatState) :
    (onOpen s).1.reconnectCount = 0 ∧
    (onOpen s).1.connected = true ∧
    (onOpen s).1.connectResolved = true ∧
    (onOpen s).1.messageQueue = [] ∧
    sentMsgFrames (onOpen s).2 = s.messageQueue ∧
    (onOpen s).2.head? = some (Effect.wsSend (Frame.auth s.userId s.userName)) ∧
    schedulesRetry (onOpen s).2 = false := by
  have hdq := drainQueue_connected
    { s with hasWs := true, connected := true, reconnectCount := 0 } s.messageQueue rfl rfl
  have hsm := sentMsgFrames_map s.messageQueue
  have hnr := drainQueue_no_retry
    { s with hasWs := true, connected := true, reconnectCount := 0 } s.messageQueue
  by_cases hq : s.messageQueue = []
  · simp [onOpen, processMessageQueue, hq, sendEffects, sentMsgFrames, schedulesRetry]
  · refine ⟨?_, ?_, ?_, ?_, ?_, ?_, ?_⟩
    · simp [onOpen, processMessageQueue, hq, sendEffects]
    · simp [onOpen, processMessageQueue, hq, sendEffects]
    · simp [onOpen, processMessageQueue, hq, sendEffects]
    · simp [onOpen, processMessageQueue, hq, sendEffects]
    · simp only [onOpen, processMessageQueue]
      simp only [sendEffects]
      simp [hq, hdq, sentMsgFrames_append, sentMsgFrames, List.filterMap_append]
      simpa [sentMsgFrames] using hsm
    · simp [onOpen, processMessageQueue, hq, sendEffects]
    · simp only [onOpen, processMessageQueue]
      simp only [sendEffects]
      simp only [schedulesRetry] at hnr
      simp [hq, schedulesRetry, List.any_append, hnr]

/-- Claim C4, counterexample to the claim as stated: starting from the
freshly constructed state, the single browser event `sockOpen` — a trace
containing no inbound server frame, hence no acknowledgement — already
resolves `connect()` with the connection marked `Connected`; nothing in
the source waits for an acknowledgement or arms an `AuthTimeout`. -/
theorem c4_counterexample :
    chatInit.connectResolved = false ∧
    (runEvents chatInit [ChatEvent.sockOpen]).1.connectResolved = true ∧
    (runEvents chatInit [ChatEvent.sockOpen]).1.connected = true ∧
    ([ChatEvent.sockOpen].all (fun e => !(isRecv e))) = true := by
  decide

/-- Claim C4 as amended: on the channel-open event, `connect` marks the
connection `Connected`, transmits the authentication frame first, and
resolves immediately, without waiting for any server acknowledgement and
without arming any timeout. -/
theorem c4_connect_amended (s : ChatState) :
    (onOpen s).1.connected = true ∧
    (onOpen s).1.connectResolved = true ∧
    (onOpen s).2.head? = some (Effect.wsSend (Frame.auth s.userId s.userName)) ∧
    schedulesRetry (onOpen s).2 = false := by
  obtain ⟨_, h2, h3, _, _, h6, h7⟩ := onOpen_spec s
  exact ⟨h2, h3, h6, h7⟩

/-- Claim C3: on a socket close below the attempt cap, the connection is
left disconnected with the counter incremented and exactly one retry
scheduled after `reconnectDelay * attemptNumber` (linear backoff, with
the delay non-decreasing in the attempt number); at the cap, the state
is unchanged except for `connected := false` (queue and counter
preserved), a terminal error notification is surfaced, no retry is
scheduled, and a repeated close still schedules none. -/
theorem c3_disconnect_backoff (s : ChatState) :
    (s.reconnectCount < s.config.reconnectAttempts →
      (onClose s).1.connected = false ∧
      (onClose s).1.reconnectCount = s.reconnectCount + 1 ∧
      (onClose s).1.messageQueue = s.messageQueue ∧
      countRetries (onClose s).2 = 1 ∧
      (onClose s).2 = [Effect.notify "warning" "disconnected",
                       Effect.notify "info" "reconnecting",
                       Effect.scheduleRetry
                         (s.config.reconnectDelay * (s.reconnectCount + 1))]) ∧
    (s.config.reconnectAttempts ≤ s.reconnectCount →
      (onClose s).1 = { s with connected := false } ∧
      countRetries (onClose s).2 = 0 ∧
      surfacesError (onClose s).2 = true ∧
      countRetries (onClose (onClose s).1).2 = 0) ∧
    (∀ n1 n2 : Nat, n1 ≤ n2 →
      s.config.reconnectDelay * n1 ≤ s.config.reconnectDelay * n2) := by
  refine ⟨?_, ?_, ?_⟩
  · intro h
    unfold onClose handleDisconnection
    rw [if_pos (by simpa using h)]
    simp [countRetries]
  · intro h
    have hn : ¬ ((({ s with connected := false } : ChatState)).reconnectCount
        < ({ s with connected := false } : ChatState).config.reconnectAttempts) := by
      simpa using Nat.not_lt.mpr h
    constructor
    · unfold onClose handleDisconnection
      rw [if_neg hn]
    constructor
    · unfold onClose handleDisconnection
      rw [if_neg hn]
      simp [countRetries]
    constructor
    · unfold onClose handleDisconnection
      rw [if_neg hn]
      simp [surfacesError]
    · unfold onClose handleDisconnection
      rw [if_neg hn]
      simp only []
      rw [if_neg (by simpa using Nat.not_lt.mpr h)]
      simp [countRetries]
  · intro n1 n2 h
    exact Nat.mul_le_mul_left _ h

theorem c3_witness :
    countRetries (onClose chatS0).2 = 1 ∧
    (onClose chatS0).1.reconnectCount = chatS0.reconnectCount + 1 ∧
    countRetries (onClose chatFailedSt).2 = 0 ∧
    surfacesError (onClose chatFailedSt).2 = true ∧
    countRetries (onClose (onClose chatFailedSt).1).2 = 0 :=
  ⟨((c3_disconnect_backoff chatS0).1 (by decide)).2.2.2.1,
   ((c3_disconnect_backoff chatS0).1 (by decide)).2.1,
   ((c3_disconnect_backoff chatFailedSt).2.1 (by decide)).2.1,
   ((c3_disconnect_backoff chatFailedSt).2.1 (by decide)).2.2.1,
   ((c3_disconnect_backoff chatFailedSt).2.1 (by decide)).2.2.2⟩

end ZewedChat

namespace ZewedChat

/-- Claim C5, counterexample to the claim as stated: a decoded frame
whose `type` matches no `switch` case is ignored with an empty effect
list — nothing is logged, because the `switch` in
`ChatSystem.handleMessage` has no `default` case — whereas the claim
requires unknown types to be logged. -/
theorem c5_counterexample :
    bogusInData.type ∉ dispatchTypes ∧
    handleMessage chatS0 (InEvent.parsed bogusInData) = (chatS0, []) := by
  decide

/-- Claim C5 as amended: a decoded frame with an unknown type is
silently ignored — no handler runs, no diagnostic is logged, no error is
surfaced — and the chat state is unchanged; a malformed frame that fails
to decode is dropped with exactly one logged diagnostic and no state
change; a frame for the types room_update, user_joined, user_left or
message_read, whose switch cases invoke handler methods that are not
defined anywhere in the repository, is likewise dropped with the same
logged diagnostic and no state change; in all these cases the connection
stays alive. -/
theorem c5_router_amended (s : ChatState) (d dm : InData)
    (hu : d.type ∉ dispatchTypes)
    (hm : dm.type ∈ missingHandlerTypes) :
    handleMessage s (InEvent.parsed d) = (s, []) ∧
    handleMessage s InEvent.malformed = (s, [Effect.logError "parseFailed"]) ∧
    handleMessage s (InEvent.parsed dm) = (s, [Effect.logError "parseFailed"]) := by
  refine ⟨?_, rfl, ?_⟩
  · simp only [dispatchTypes, List.mem_cons, List.not_mem_nil, or_false, not_or] at hu
    obtain ⟨h1, h2, h3, h4, h5, h6, h7, h8, h9⟩ := hu
    simp [handleMessage, h1, h2, h3, h4, h5, h6, h7, h8, h9]
  · simp only [missingHandlerTypes, List.mem_cons, List.not_mem_nil, or_false] at hm
    rcases hm with h | h | h | h <;>
      (simp only [handleMessage]; rw [h]; rfl)

theorem c5_witness :
    handleMessage chatS0 (InEvent.parsed bogusInData2) = (chatS0, []) ∧
    handleMessage chatS0 InEvent.malformed = (chatS0, [Effect.logError "parseFailed"]) ∧
    handleMessage chatS0 (InEvent.parsed roomUpdData)
      = (chatS0, [Effect.logError "parseFailed"]) :=
  c5_router_amended chatS0 bogusInData2 roomUpdData (by decide) (by decide)

lemma sendMessage_offline_step (s : ChatState) (r text freshId : String) (ts : Nat)
    (hconn : s.connected = false) (hroom : s.currentRoom = some r) :
    ((sendMessage s text none freshId ts).1.connected = false) ∧
    ((sendMessage s text none freshId ts).1.currentRoom = some r) ∧
    ((sendMessage s text none freshId ts).1.userId = s.userId) ∧
    ((sendMessage s text none freshId ts).1.userName = s.userName) ∧
    ((sendMessage s text none freshId ts).1.messageQueue
      = s.messageQueue ++ [mkMessage freshId r s.userId s.userName text ts]) := by
  simp [sendMessage, hroom, hconn, addMessageToRoom]

lemma fold_offline (inputs : List (String × String × Nat)) (s : ChatState) (r : String)
    (hconn : s.connected = false) (hroom : s.currentRoom = some r) :
    ((inputs.foldl (fun st i => (sendMessage st i.1 none i.2.1 i.2.2).1) s).connected
      = false) ∧
    ((inputs.foldl (fun st i => (sendMessage st i.1 none i.2.1 i.2.2).1) s).currentRoom
      = some r) ∧
    ((inputs.foldl (fun st i => (sendMessage st i.1 none i.2.1 i.2.2).1) s).userId
      = s.userId) ∧
    ((inputs.foldl (fun st i => (sendMessage st i.1 none i.2.1 i.2.2).1) s).userName
      = s.userName) ∧
    ((inputs.foldl (fun st i => (sendMessage st i.1 none i.2.1 i.2.2).1) s).messageQueue
      = s.messageQueue
        ++ inputs.map (fun i => mkMessage i.2.1 r s.userId s.userName i.1 i.2.2)) := by
  induction inputs generalizing s with
  | nil => simp [hconn, hroom]
  | cons i rest ih =>
    obtain ⟨h1, h2, h3, h4, h5⟩ := sendMessage_offline_step s r i.1 i.2.1 i.2.2 hconn hroom
    obtain ⟨g1, g2, g3, g4, g5⟩ := ih ((sendMessage s i.1 none i.2.1 i.2.2).1) h1 h2
    refine ⟨g1, g2, ?_, ?_, ?_⟩
    · simp only [List.foldl_cons]
      rw [g3, h3]
    · simp only [List.foldl_cons]
      rw [g4, h4]
    · simp only [List.foldl_cons, List.map_cons]
      rw [g5]
      simp only [h3, h4, h5]
      simp [List.append_assoc]

/-- Claim C1: whenever the connection reaches `Connected` (the
`ws.onopen` handler) after chat messages were issued while disconnected,
the reconnect counter is reset to 0 and the outbound queue is drained
strictly FIFO: the chat messages transmitted on the wire are exactly the
messages issued while disconnected, each exactly once, in issue order,
and the queue is empty afterwards. -/
theorem c1_reconnect_drains_fifo (s : ChatState) (r : String)
    (inputs : List (String × String × Nat))
    (hconn : s.connected = false) (hroom : s.currentRoom = some r)
    (hq : s.messageQueue = []) :
    ((onOpen (inputs.foldl (fun st i => (sendMessage st i.1 none i.2.1 i.2.2).1) s)).1.reconnectCount
      = 0) ∧
    ((onOpen (inputs.foldl (fun st i => (sendMessage st i.1 none i.2.1 i.2.2).1) s)).1.messageQueue
      = []) ∧
    (sentMsgFrames (onOpen (inputs.foldl (fun st i => (sendMessage st i.1 none i.2.1 i.2.2).1) s)).2
      = inputs.map (fun i => mkMessage i.2.1 r s.userId s.userName i.1 i.2.2)) := by
  obtain ⟨f1, f2, f3, f4, f5⟩ := fold_offline inputs s r hconn hroom
  obtain ⟨o1, _, _, o4, o5, _, _⟩ :=
    onOpen_spec (inputs.foldl (fun st i => (sendMessage st i.1 none i.2.1 i.2.2).1) s)
  refine ⟨o1, o4, ?_⟩
  rw [o5, f5, hq]
  simp

theorem c1_witness :
    ((onOpen (([("a", "id1", 1), ("b", "id2", 2)] : List (String × String × Nat)).foldl
        (fun st i => (sendMessage st i.1 none i.2.1 i.2.2).1) chatS0)).1.reconnectCount
      = 0) ∧
    ((onOpen (([("a", "id1", 1), ("b", "id2", 2)] : List (String × String × Nat)).foldl
        (fun st i => (sendMessage st i.1 none i.2.1 i.2.2).1) chatS0)).1.messageQueue
      = []) ∧
    (sentMsgFrames (onOpen (([("a", "id1", 1), ("b", "id2", 2)] : List (String × String × Nat)).foldl
        (fun st i => (sendMessage st i.1 none i.2.1 i.2.2).1) chatS0)).2
      = ([("a", "id1", 1), ("b", "id2", 2)] : List (String × String × Nat)).map
          (fun i => mkMessage i.2.1 "r1" chatS0.userId chatS0.userName i.1 i.2.2)) :=
  c1_reconnect_drains_fifo chatS0 "r1" [("a", "id1", 1), ("b", "id2", 2)] rfl rfl rfl

lemma findInList_append_mid (l1 l2 : List Message) (m0 : Message) (id : String)
    (h1 : findInList l1 id = none) (h0 : m0.id = id) :
    findInList (l1 ++ m0 :: l2) id = some m0 := by
  induction l1 with
  | nil => simp [findInList, h0]
  | cons x xs ih =>
    by_cases hx : x.id = id
    · simp [findInList, hx] at h1
    · simp only [List.cons_append, findInList, if_neg hx]
      exact ih (by simpa [findInList, hx] using h1)

lemma updList_append_mid (l1 l2 : List Message) (m0 : Message) (id st : String)
    (h1 : findInList l1 id = none) (h0 : m0.id = id) :
    updStatusInList (l1 ++ m0 :: l2) id st = l1 ++ { m0 with status := st } :: l2 := by
  induction l1 with
  | nil => simp [updStatusInList, h0]
  | cons x xs ih =>
    by_cases hx : x.id = id
    · simp [findInList, hx] at h1
    · simp only [List.cons_append, updStatusInList, if_neg hx]
      exact congrArg (fun t => x :: t) (ih (by simpa [findInList, hx] using h1))

lemma findMessage_decomp (pre post : List (String × List Message)) (r : String)
    (l : List Message) (id : String) (m0 : Message)
    (hpre : ∀ p ∈ pre, findInList p.2 id = none)
    (hfind : findInList l id = some m0) :
    findMessage (pre ++ (r, l) :: post) id = some m0 := by
  induction pre with
  | nil => simp [findMessage, hfind]
  | cons p ps ih =>
    obtain ⟨pr, pl⟩ := p
    have hp := hpre (pr, pl) (List.mem_cons_self _ _)
    simp only [List.cons_append, findMessage]
    simp only at hp
    rw [hp]
    exact ih (fun q hq => hpre q (List.mem_cons_of_mem _ hq))

lemma updRooms_decomp (pre post : List (String × List Message)) (r : String)
    (l : List Message) (id st : String) (m0 : Message)
    (hpre : ∀ p ∈ pre, findInList p.2 id = none)
    (hfind : findInList l id = some m0) :
    updStatusInRooms (pre ++ (r, l) :: post) id st
      = pre ++ (r, updStatusInList l id st) :: post := by
  induction pre with
  | nil => simp [updStatusInRooms, hfind]
  | cons p ps ih =>
    obtain ⟨pr, pl⟩ := p
    have hp := hpre (pr, pl) (List.mem_cons_self _ _)
    simp only at hp
    simp only [List.cons_append, updStatusInRooms, hp]
    exact congrArg (fun t => (pr, pl) :: t)
      (ih (fun q hq => hpre q (List.mem_cons_of_mem _ hq)))

/-- Claim C10: an inbound `message` frame whose sender is the local user
is not appended to any room history and changes no unread counter; the
only state change is that the first stored copy of that message (by id,
scanning rooms in insertion order) gets `status := "delivered"`, with
every other field of that message, every other message, and every other
room untouched. -/
theorem c10_own_message_delivery (s : ChatState) (m : Message)
    (pre post : List (String × List Message)) (r : String)
    (l1 l2 : List Message) (m0 : Message)
    (hown : m.userId = s.userId)
    (hdecomp : s.messages = pre ++ (r, l1 ++ m0 :: l2) :: post)
    (hid : m0.id = m.id)
    (hpre : ∀ p ∈ pre, findInList p.2 m.id = none)
    (hl1 : findInList l1 m.id = none) :
    (handleIncomingMessage s m).1
      = { s with messages := pre ++ (r, l1 ++ { m0 with status := "delivered" } :: l2) :: post } ∧
    (handleIncomingMessage s m).1.unreadCounts = s.unreadCounts := by
  have hfindl : findInList (l1 ++ m0 :: l2) m.id = some m0 :=
    findInList_append_mid l1 l2 m0 m.id hl1 hid
  have hfind : findMessage s.messages m.id = some m0 := by
    rw [hdecomp]
    exact findMessage_decomp pre post r _ m.id m0 hpre hfindl
  have hupd : updStatusInRooms s.messages m.id "delivered"
      = pre ++ (r, l1 ++ { m0 with status := "delivered" } :: l2) :: post := by
    rw [hdecomp, updRooms_decomp pre post r _ m.id "delivered" m0 hpre hfindl,
        updList_append_mid l1 l2 m0 m.id "delivered" hl1 hid]
  have hmain : (handleIncomingMessage s m).1
      = { s with messages := pre ++ (r, l1 ++ { m0 with status := "delivered" } :: l2) :: post } := by
    simp only [handleIncomingMessage, if_pos hown, updateMessageStatus, hfind, hupd]
  refine ⟨hmain, ?_⟩
  rw [hmain]

theorem c10_witness :
    (handleIncomingMessage chatC10 mZ).1
      = { chatC10 with
            messages := [("r0", [mX])] ++ ("r1", [mY] ++ { mZ with status := "delivered" } :: []) :: [] } ∧
    (handleIncomingMessage chatC10 mZ).1.unreadCounts = chatC10.unreadCounts :=
  c10_own_message_delivery chatC10 mZ [("r0", [mX])] [] "r1" [mY] [] mZ
    rfl rfl rfl (by decide) rfl

end ZewedChat

namespace ZewedMedia

open ZewedChat (mapGet mapSet)

lemma forall2_senders_same (nt : Track) (l : List Sender)
    (h : ∀ x ∈ l, isVideoSender x = false) :
    List.Forall₂ (senderUpdated nt) l l := by
  induction l with
  | nil => exact List.Forall₂.nil
  | cons x xs ih =>
    refine List.Forall₂.cons ⟨?_, fun _ => rfl⟩
      (ih (fun y hy => h y (List.mem_cons_of_mem x hy)))
    intro hx
    exact absurd hx (by simp [h x (List.mem_cons_self x xs)])

lemma replaceFirstVideo_spec (nt : Track) (l : List Sender)
    (h : (l.filter isVideoSender).length ≤ 1) :
    List.Forall₂ (senderUpdated nt) (replaceFirstVideo l (some nt)) l := by
  induction l with
  | nil => exact List.Forall₂.nil
  | cons sd rest ih =>
    by_cases hv : isVideoSender sd = true
    · have hfilter : (sd :: rest).filter isVideoSender
          = sd :: rest.filter isVideoSender := by
        simp [List.filter_cons, hv]
      rw [hfilter] at h
      simp only [List.length_cons] at h
      have hrest : rest.filter isVideoSender = [] := by
        have hz : (rest.filter isVideoSender).length = 0 := by omega
        exact List.length_eq_zero.mp hz
      have hnone : ∀ x ∈ rest, isVideoSender x = false := by
        intro x hx
        cases hb : isVideoSender x
        · rfl
        · exfalso
          have hmem : x ∈ rest.filter isVideoSender := List.mem_filter.mpr ⟨hx, hb⟩
          rw [hrest] at hmem
          cases hmem
      simp only [replaceFirstVideo, if_pos hv]
      exact List.Forall₂.cons
        ⟨fun _ => rfl, fun hx => absurd hv (by simp [hx])⟩
        (forall2_senders_same nt rest hnone)
    · have hv2 : isVideoSender sd = false := by
        cases hb : isVideoSender sd
        · rfl
        · exact absurd hb hv
      simp only [replaceFirstVideo, if_neg hv]
      refine List.Forall₂.cons ⟨fun hx => absurd hx hv, fun _ => rfl⟩ (ih ?_)
      have hfilter : (sd :: rest).filter isVideoSender = rest.filter isVideoSender := by
        simp [List.filter_cons, hv2]
      rw [hfilter] at h
      exact h

lemma replaceAll_sessions_spec (nt : Track) (pcs : List (String × PeerConn))
    (h : ∀ p ∈ pcs, (p.2.senders.filter isVideoSender).length ≤ 1) :
    List.Forall₂ (sessionUpdated nt)
      (pcs.map (fun (p : String × PeerConn) =>
        (p.1, { p.2 with senders := replaceFirstVideo p.2.senders (some nt) })))
      pcs := by
  induction pcs with
  | nil => exact List.Forall₂.nil
  | cons p rest ih =>
    refine List.Forall₂.cons ⟨rfl, rfl, rfl, rfl, ?_⟩
      (ih (fun q hq => h q (List.mem_cons_of_mem p hq)))
    exact replaceFirstVideo_spec nt p.2.senders (h p (List.mem_cons_self p rest))

/-- Claim C6: for every active peer session holding at most one video
sender (the source's standing assumption of one outbound track per
kind), starting screen share sets every session's outbound video track
to the captured screen track and leaves every non-video (audio) sender
untouched; stopping screen share swaps every session's video track back
to the camera track, again leaving audio senders untouched. -/
theorem c6_replace_video_track (s : MediaState) (screenTracks : List Track)
    (nt vt : Track)
    (hone : ∀ p ∈ s.peerConnections, (p.2.senders.filter isVideoSender).length ≤ 1)
    (hnt : firstVideoTrack screenTracks = some nt)
    (hvt : localVideoTrack s = some vt)
    (hscr : s.screenStream.isSome = true) :
    List.Forall₂ (sessionUpdated nt)
      (startScreenShare s screenTracks).1.peerConnections s.peerConnections ∧
    List.Forall₂ (sessionUpdated vt)
      (stopScreenShare s).1.peerConnections s.peerConnections := by
  constructor
  · have h := replaceAll_sessions_spec nt s.peerConnections hone
    simpa [startScreenShare, hnt] using h
  · obtain ⟨st, hst⟩ := Option.isSome_iff_exists.mp hscr
    have h := replaceAll_sessions_spec vt s.peerConnections hone
    simpa [stopScreenShare, hst, hvt] using h

theorem c6_witness :
    List.Forall₂ (sessionUpdated trackScr)
      (startScreenShare mediaS1 [trackScr]).1.peerConnections mediaS1.peerConnections ∧
    List.Forall₂ (sessionUpdated trackCam)
      (stopScreenShare mediaS1).1.peerConnections mediaS1.peerConnections :=
  c6_replace_video_track mediaS1 [trackScr] trackScr trackCam
    (by decide) (by decide) (by decide) (by decide)

/-- Claim C7, counterexample to the claim as stated: a candidate frame
arriving when no session exists for that participant is discarded with
an empty effect list — nothing is logged, because
`MediaRoom.handleCandidate` has no `else` branch — whereas the claim
says the failure is logged. -/
theorem c7_counterexample :
    mapGet mediaS0.peerConnections "p1" = none ∧
    handleCandidate mediaS0 "p1" "cand1" = (mediaS0, []) := by
  exact ⟨rfl, rfl⟩

/-- Claim C7 as amended: when an offer for a participant arrives, the
session is registered synchronously (before the handler's first await),
so a candidate for that participant processed before the local answer is
generated is applied to the session and survives answer generation — it
is not dropped; a candidate or answer arriving when no session exists is
silently discarded with no state change, no logged diagnostic, and no
failure. -/
theorem c7_candidate_amended (s : MediaState) (p c off ans : String)
    (hno : mapGet s.peerConnections p = none) :
    (mapGet ((offerComplete ((handleCandidate (offerCreate s p) p c).1) p p off ans).1.peerConnections) p
      = some { senders := (s.localStream.getD []).map (fun t => { track := some t }),
               remoteDesc := some off, localDesc := some ans, candidates := [c] }) ∧
    handleCandidate s p c = (s, []) ∧
    handleAnswer s p ans = (s, []) := by
  refine ⟨?_, ?_, ?_⟩
  · simp only [offerCreate, createPeerConnection, handleCandidate, offerComplete,
      ZewedChat.mapGet_mapSet_self, List.nil_append]
  · simp [handleCandidate, hno]
  · simp [handleAnswer, hno]

theorem c7_witness :
    (mapGet ((offerComplete ((handleCandidate (offerCreate mediaS0 "p1") "p1" "c1").1) "p1" "p1" "off1" "ans1").1.peerConnections) "p1"
      = some { senders := (mediaS0.localStream.getD []).map (fun t => { track := some t }),
               remoteDesc := some "off1", localDesc := some "ans1", candidates := ["c1"] }) ∧
    handleCandidate mediaS0 "p1" "c1" = (mediaS0, []) ∧
    handleAnswer mediaS0 "p1" "ans1" = (mediaS0, []) :=
  c7_candidate_amended mediaS0 "p1" "c1" "off1" "ans1" rfl

/-- Claim C9, counterexample to the claim as stated: `leaveRoom` returns
with the signaling WebSocket still open and still referenced — the
source never calls `close()` on it — whereas the claim requires the
socket connection to have been released. -/
theorem c9_counterexample :
    mediaS1.hasSignaling = true ∧ mediaS1.signalingOpen = true ∧
    (leaveRoom mediaS1).1.signalingOpen = true ∧
    (leaveRoom mediaS1).1.hasSignaling = true := by
  exact ⟨rfl, rfl, rfl, rfl⟩

/-- Claim C9 as amended: after `leaveRoom` returns, every peer session
has been closed and removed, every local and screen-share track has been
stopped, and the call state is reset — but the signaling socket is not
released (it stays open and referenced); likewise
`ChatSystem.leaveAllRooms` sends leave frames, clears rooms and
messages, and leaves its WebSocket open. -/
theorem c9_leave_amended (s : MediaState) (cs : ZewedChat.ChatState) :
    (leaveRoom s).1.peerConnections = [] ∧
    (∀ p ∈ s.peerConnections, MEffect.closePeer p.1 ∈ (leaveRoom s).2) ∧
    (∀ t ∈ (leaveRoom s).1.localStream.getD [], t.stopped = true) ∧
    (∀ t ∈ (leaveRoom s).1.screenStream.getD [], t.stopped = true) ∧
    (leaveRoom s).1.roomId = none ∧
    (leaveRoom s).1.participants = [] ∧
    (leaveRoom s).1.isCallActive = false ∧
    (leaveRoom s).1.signalingOpen = s.signalingOpen ∧
    (leaveRoom s).1.hasSignaling = s.hasSignaling ∧
    (ZewedChat.leaveAllRooms cs).1.rooms = [] ∧
    (ZewedChat.leaveAllRooms cs).1.messages = [] ∧
    (ZewedChat.leaveAllRooms cs).1.currentRoom = none ∧
    (ZewedChat.leaveAllRooms cs).1.hasWs = cs.hasWs ∧
    (ZewedChat.leaveAllRooms cs).1.connected = cs.connected := by
  refine ⟨rfl, ?_, ?_, ?_, rfl, rfl, rfl, rfl, rfl, rfl, rfl, rfl, rfl, rfl⟩
  · intro p hp
    have hm : MEffect.closePeer p.1
        ∈ s.peerConnections.map (fun q => MEffect.closePeer q.1) :=
      List.mem_map_of_mem _ hp
    show MEffect.closePeer p.1 ∈ (leaveRoom s).2
    simp only [leaveRoom]
    exact List.mem_append_left _ (List.mem_append_left _ hm)
  · intro t ht
    simp only [leaveRoom] at ht
    cases hls : s.localStream with
    | none =>
      rw [hls] at ht
      simp at ht
    | some l =>
      rw [hls] at ht
      simp [stopAll] at ht
      obtain ⟨x, hx, rfl⟩ := ht
      rfl
  · intro t ht
    simp only [leaveRoom] at ht
    cases hls : s.screenStream with
    | none =>
      rw [hls] at ht
      simp at ht
    | some l =>
      rw [hls] at ht
      simp [stopAll] at ht
      obtain ⟨x, hx, rfl⟩ := ht
      rfl

end ZewedMedia
